import Mathlib

/-
Verification of the boss-rush-nes 6502 emulator core.

Shallow embedding conventions:
- Machine integers are `Nat` with explicit `% 256` / `% 65536` at every point
  where the Rust source performs a wrapping cast (`as u8`, `as u16`) or a
  wrapping arithmetic operation (`wrapping_add`, `wrapping_sub`).
- The 64 KiB RAM of `bus.rs` is a function `Nat → Nat`; reading normalizes
  with `% 256` (the array stores `u8`).
- Fallible code is `Option`-valued: the `usize` subtraction in
  `NromMapper::cpu_read` underflows (a panic in debug builds) for addresses
  below 0x8000, so that read is modelled as `Option Nat`.
- `Cartridge::from_rom` performs slice/index operations that panic on short
  buffers; its embedding returns a three-way result (ok / load error /
  panicked) so the panic paths are observable.
-/

namespace BossRush

/-- Status flag masks, from `StatusFlags` in cpu.rs. -/
def StatusFlags.CARRY : Nat := 0x01
def StatusFlags.ZERO : Nat := 0x02
def StatusFlags.INTERRUPT_DISABLE : Nat := 0x04
def StatusFlags.DECIMAL : Nat := 0x08
def StatusFlags.BREAK : Nat := 0x10
def StatusFlags.UNUSED : Nat := 0x20
def StatusFlags.OVERFLOW : Nat := 0x40
def StatusFlags.NEGATIVE : Nat := 0x80

/-- Overflow formula from cpu.rs: `!(a ^ b) & (a ^ result) & 0x0080 != 0`
with `!` the 16-bit complement. -/
def calc_overflow (a b result : Nat) : Bool :=
  (((a ^^^ b) ^^^ 0xFFFF) &&& (a ^^^ result) &&& 0x0080) != 0

/-- From cpu.rs: `p & flag != 0`. -/
def has_flag (p flag : Nat) : Bool := p &&& flag != 0

/-- From `CPU::set_flag`: set or clear `flag`, then unconditionally OR the
UNUSED bit back in (`!flag` on u8 is `flag ^^^ 0xFF`). -/
def set_flag (p flag : Nat) (value : Bool) : Nat :=
  (if value then p ||| flag else p &&& (flag ^^^ 0xFF)) ||| StatusFlags.UNUSED

/-- CPU register file and execution-scratch fields, from `struct CPU`.
All fields are `Nat` images of the `u8`/`u16` fields. -/
structure CPU where
  a : Nat
  x : Nat
  y : Nat
  sp : Nat
  pc : Nat
  p : Nat
  addr_abs : Nat
  addr_rel : Nat
  opcode : Nat
  cycles : Nat
deriving DecidableEq

/-- The 64 KiB RAM of the root `bus.rs`, as a map from address to cell. -/
def Mem : Type := Nat → Nat

/-- From `Bus::read`: the array stores `u8`, so a read yields the cell mod 256. -/
def Bus.read (m : Mem) (addr : Nat) : Nat := m addr % 256

/-- From `Bus::write`. -/
def Bus.write (m : Mem) (addr data : Nat) : Mem :=
  fun a => if a = addr then data else m a

/-- Addressing-mode tag, from the `AddrMode` enum used by the opcode table. -/
inductive AddrMode where
  | imp | imm | zp0 | zpx | zpy | rel | abs | abx | aby | ind | izx | izy
deriving DecidableEq

/-- From `CPU::imp`. -/
def CPU.imp (c : CPU) (_m : Mem) : CPU × Nat := (c, 0)

/-- From `CPU::imm`. -/
def CPU.imm (c : CPU) (_m : Mem) : CPU × Nat :=
  ({c with addr_abs := c.pc, pc := (c.pc + 1) % 65536}, 0)

/-- From `CPU::zp0`. -/
def CPU.zp0 (c : CPU) (m : Mem) : CPU × Nat :=
  ({c with addr_abs := Bus.read m c.pc, pc := (c.pc + 1) % 65536}, 0)

/-- From `CPU::zpx`: the zero-page add wraps on 8 bits. -/
def CPU.zpx (c : CPU) (m : Mem) : CPU × Nat :=
  ({c with addr_abs := (Bus.read m c.pc + c.x) % 256, pc := (c.pc + 1) % 65536}, 0)

/-- From `CPU::zpy`. -/
def CPU.zpy (c : CPU) (m : Mem) : CPU × Nat :=
  ({c with addr_abs := (Bus.read m c.pc + c.y) % 256, pc := (c.pc + 1) % 65536}, 0)

/-- From `CPU::rel`: sign-extend bit 7 of the operand into the high byte. -/
def CPU.rel (c : CPU) (m : Mem) : CPU × Nat :=
  let r := Bus.read m c.pc
  let c1 := {c with addr_rel := r, pc := (c.pc + 1) % 65536}
  (if r &&& 0x0080 != 0 then {c1 with addr_rel := r ||| 0xFF00} else c1, 0)

/-- From `CPU::abs`. -/
def CPU.abs (c : CPU) (m : Mem) : CPU × Nat :=
  let lo := Bus.read m c.pc
  let pc1 := (c.pc + 1) % 65536
  let hi := Bus.read m pc1
  let pc2 := (pc1 + 1) % 65536
  ({c with addr_abs := (hi <<< 8) ||| lo, pc := pc2}, 0)

/-- From `CPU::abx`: absolute plus X, with a page-cross penalty. -/
def CPU.abx (c : CPU) (m : Mem) : CPU × Nat :=
  let lo := Bus.read m c.pc
  let pc1 := (c.pc + 1) % 65536
  let hi := Bus.read m pc1
  let pc2 := (pc1 + 1) % 65536
  let aa := (((hi <<< 8) ||| lo) + c.x % 256) % 65536
  ({c with addr_abs := aa, pc := pc2}, if aa &&& 0xFF00 != (hi <<< 8) then 1 else 0)

/-- From `CPU::aby`. -/
def CPU.aby (c : CPU) (m : Mem) : CPU × Nat :=
  let lo := Bus.read m c.pc
  let pc1 := (c.pc + 1) % 65536
  let hi := Bus.read m pc1
  let pc2 := (pc1 + 1) % 65536
  let aa := (((hi <<< 8) ||| lo) + c.y % 256) % 65536
  ({c with addr_abs := aa, pc := pc2}, if aa &&& 0xFF00 != (hi <<< 8) then 1 else 0)

/-- From `CPU::ind`: indirect, reproducing the 6502 page-wrap bug when the
low pointer byte is 0xFF. -/
def CPU.ind (c : CPU) (m : Mem) : CPU × Nat :=
  let lo := Bus.read m c.pc
  let pc1 := (c.pc + 1) % 65536
  let hi := Bus.read m pc1
  let pc2 := (pc1 + 1) % 65536
  let addr := (hi <<< 8) ||| lo
  if lo = 0x00FF then
    ({c with addr_abs := (Bus.read m (addr &&& 0xFF00) <<< 8) ||| Bus.read m addr,
             pc := pc2}, 0)
  else
    ({c with addr_abs := (Bus.read m ((addr + 1) % 65536) <<< 8) ||| Bus.read m addr,
             pc := pc2}, 0)

/-- From `CPU::izx`: the zero-page pointer arithmetic wraps on 8 bits. -/
def CPU.izx (c : CPU) (m : Mem) : CPU × Nat :=
  let a0 := Bus.read m c.pc
  let pc1 := (c.pc + 1) % 65536
  let lo := Bus.read m ((a0 + c.x) % 256)
  let hi := Bus.read m ((a0 + c.x + 1) % 256)
  ({c with addr_abs := (hi <<< 8) ||| lo, pc := pc1}, 0)

/-- From `CPU::izy`: Y is added after dereferencing; page-cross penalty. -/
def CPU.izy (c : CPU) (m : Mem) : CPU × Nat :=
  let a0 := Bus.read m c.pc
  let pc1 := (c.pc + 1) % 65536
  let lo := Bus.read m a0
  let hi := Bus.read m ((a0 + 1) % 256)
  let aa := (((hi <<< 8) ||| lo) + c.y % 256) % 65536
  ({c with addr_abs := aa, pc := pc1}, if aa &&& 0xFF00 != (hi <<< 8) then 1 else 0)

/-- Dispatch an addressing-mode tag to its handler. -/
def runMode : AddrMode → CPU → Mem → CPU × Nat
  | .imp, c, m => CPU.imp c m
  | .imm, c, m => CPU.imm c m
  | .zp0, c, m => CPU.zp0 c m
  | .zpx, c, m => CPU.zpx c m
  | .zpy, c, m => CPU.zpy c m
  | .rel, c, m => CPU.rel c m
  | .abs, c, m => CPU.abs c m
  | .abx, c, m => CPU.abx c m
  | .aby, c, m => CPU.aby c m
  | .ind, c, m => CPU.ind c m
  | .izx, c, m => CPU.izx c m
  | .izy, c, m => CPU.izy c m

/-- From `CPU::fetch`: the operand is `A` for implicit mode, else the byte at
`addr_abs`. The Rust function returns `u8`, hence the `% 256`. -/
def CPU.fetch (mode : AddrMode) (c : CPU) (m : Mem) : Nat :=
  (if mode = AddrMode.imp then c.a else Bus.read m c.addr_abs) % 256

/-- From `CPU::adc`. -/
def CPU.adc (mode : AddrMode) (c : CPU) (m : Mem) : CPU × Mem × Nat :=
  let fetched := CPU.fetch mode c m
  let carry := if has_flag c.p StatusFlags.CARRY then 1 else 0
  let result := (c.a + fetched + carry) % 65536
  let p1 := set_flag c.p StatusFlags.CARRY (result &&& 0xFF00 != 0)
  let p2 := set_flag p1 StatusFlags.ZERO (result &&& 0x00FF == 0)
  let p3 := set_flag p2 StatusFlags.NEGATIVE (result &&& 0x0080 != 0)
  let p4 := set_flag p3 StatusFlags.OVERFLOW (calc_overflow c.a fetched result)
  ({c with a := result % 256, p := p4}, m, 1)

/-- From `CPU::and`. -/
def CPU.and (mode : AddrMode) (c : CPU) (m : Mem) : CPU × Mem × Nat :=
  let fetched := CPU.fetch mode c m
  let a1 := c.a &&& fetched
  let p1 := set_flag c.p StatusFlags.ZERO (a1 == 0)
  let p2 := set_flag p1 StatusFlags.NEGATIVE (a1 &&& 0x80 != 0)
  ({c with a := a1, p := p2}, m, 1)

/-- From `CPU::asl`. -/
def CPU.asl (mode : AddrMode) (c : CPU) (m : Mem) : CPU × Mem × Nat :=
  let result := (CPU.fetch mode c m) <<< 1
  let p1 := set_flag c.p StatusFlags.CARRY (result &&& 0xFF00 != 0)
  let p2 := set_flag p1 StatusFlags.ZERO (result &&& 0x00FF == 0)
  let p3 := set_flag p2 StatusFlags.NEGATIVE (result &&& 0x0080 != 0)
  if mode = AddrMode.imp then ({c with a := result % 256, p := p3}, m, 0)
  else ({c with p := p3}, Bus.write m c.addr_abs (result % 256), 0)

/-- From `CPU::branch_taken`: add a cycle, compute the target, add one more
cycle on page cross, jump. -/
def CPU.branch_taken (c : CPU) : CPU :=
  let cy1 := (c.cycles + 1) % 256
  let aa := (c.pc + c.addr_rel) % 65536
  let cy2 := if aa &&& 0xFF00 != c.pc &&& 0xFF00 then (cy1 + 1) % 256 else cy1
  {c with cycles := cy2, addr_abs := aa, pc := aa}

/-- From `CPU::bcc`. -/
def CPU.bcc (_mode : AddrMode) (c : CPU) (m : Mem) : CPU × Mem × Nat :=
  (if !has_flag c.p StatusFlags.CARRY then c.branch_taken else c, m, 0)

/-- From `CPU::bcs`. -/
def CPU.bcs (_mode : AddrMode) (c : CPU) (m : Mem) : CPU × Mem × Nat :=
  (if has_flag c.p StatusFlags.CARRY then c.branch_taken else c, m, 0)

/-- From `CPU::beq`. -/
def CPU.beq (_mode : AddrMode) (c : CPU) (m : Mem) : CPU × Mem × Nat :=
  (if has_flag c.p StatusFlags.ZERO then c.branch_taken else c, m, 0)

/-- From `CPU::bit`: note that V and N are taken from `result = A & fetched`,
not from the fetched operand. -/
def CPU.bit (mode : AddrMode) (c : CPU) (m : Mem) : CPU × Mem × Nat :=
  let fetched := CPU.fetch mode c m
  let result := c.a &&& fetched
  let p1 := set_flag c.p StatusFlags.ZERO (result == 0)
  let p2 := set_flag p1 StatusFlags.OVERFLOW (result &&& 0x40 != 0)
  let p3 := set_flag p2 StatusFlags.NEGATIVE (result &&& 0x80 != 0)
  ({c with p := p3}, m, 0)

/-- From `CPU::bmi`. -/
def CPU.bmi (_mode : AddrMode) (c : CPU) (m : Mem) : CPU × Mem × Nat :=
  (if has_flag c.p StatusFlags.NEGATIVE then c.branch_taken else c, m, 0)

/-- From `CPU::bne`. -/
def CPU.bne (_mode : AddrMode) (c : CPU) (m : Mem) : CPU × Mem × Nat :=
  (if !has_flag c.p StatusFlags.ZERO then c.branch_taken else c, m, 0)

/-- From `CPU::bpl`. -/
def CPU.bpl (_mode : AddrMode) (c : CPU) (m : Mem) : CPU × Mem × Nat :=
  (if !has_flag c.p StatusFlags.NEGATIVE then c.branch_taken else c, m, 0)

/-- From `CPU::brk`. -/
def CPU.brk (_mode : AddrMode) (c : CPU) (m : Mem) : CPU × Mem × Nat :=
  let pc1 := (c.pc + 1) % 65536
  let p1 := set_flag c.p StatusFlags.INTERRUPT_DISABLE true
  let m1 := Bus.write m (0x100 + c.sp % 256) ((pc1 >>> 8) % 256)
  let sp1 := (c.sp + 255) % 256
  let m2 := Bus.write m1 (0x100 + sp1) (pc1 % 256)
  let sp2 := (sp1 + 255) % 256
  let p2 := set_flag p1 StatusFlags.BREAK true
  let m3 := Bus.write m2 (0x100 + sp2) p2
  let sp3 := (sp2 + 255) % 256
  let p3 := set_flag p2 StatusFlags.BREAK false
  let lo := Bus.read m3 0xFFFE
  let hi := Bus.read m3 0xFFFF
  ({c with pc := (hi <<< 8) ||| lo, sp := sp3, p := p3}, m3, 0)

/-- From `CPU::bvc`. -/
def CPU.bvc (_mode : AddrMode) (c : CPU) (m : Mem) : CPU × Mem × Nat :=
  (if !has_flag c.p StatusFlags.OVERFLOW then c.branch_taken else c, m, 0)

/-- From `CPU::bvs`. -/
def CPU.bvs (_mode : AddrMode) (c : CPU) (m : Mem) : CPU × Mem × Nat :=
  (if has_flag c.p StatusFlags.OVERFLOW then c.branch_taken else c, m, 0)

/-- From `CPU::clc`. -/
def CPU.clc (_mode : AddrMode) (c : CPU) (m : Mem) : CPU × Mem × Nat :=
  ({c with p := set_flag c.p StatusFlags.CARRY false}, m, 0)

/-- From `CPU::cld`. -/
def CPU.cld (_mode : AddrMode) (c : CPU) (m : Mem) : CPU × Mem × Nat :=
  ({c with p := set_flag c.p StatusFlags.DECIMAL false}, m, 0)

/-- From `CPU::cli`. -/
def CPU.cli (_mode : AddrMode) (c : CPU) (m : Mem) : CPU × Mem × Nat :=
  ({c with p := set_flag c.p StatusFlags.INTERRUPT_DISABLE false}, m, 0)

/-- From `CPU::clv`. -/
def CPU.clv (_mode : AddrMode) (c : CPU) (m : Mem) : CPU × Mem × Nat :=
  ({c with p := set_flag c.p StatusFlags.OVERFLOW false}, m, 0)

/-- Sixteen-bit wrapping subtraction, for `(reg as u16).wrapping_sub(m as u16)`. -/
def wsub16 (a b : Nat) : Nat := ((a % 65536) + 65536 - (b % 65536)) % 65536

/-- From `CPU::set_compare_flags`. -/
def set_compare_flags (p result : Nat) : Nat :=
  let p1 := set_flag p StatusFlags.CARRY (result &&& 0xFF00 == 0)
  let p2 := set_flag p1 StatusFlags.ZERO (result &&& 0x00FF == 0)
  set_flag p2 StatusFlags.NEGATIVE (result &&& 0x0080 != 0)

/-- From `CPU::cmp`. -/
def CPU.cmp (mode : AddrMode) (c : CPU) (m : Mem) : CPU × Mem × Nat :=
  let fetched := CPU.fetch mode c m
  ({c with p := set_compare_flags c.p (wsub16 c.a fetched)}, m, 1)

/-- From `CPU::cpx`. -/
def CPU.cpx (mode : AddrMode) (c : CPU) (m : Mem) : CPU × Mem × Nat :=
  let fetched := CPU.fetch mode c m
  ({c with p := set_compare_flags c.p (wsub16 c.x fetched)}, m, 0)

/-- From `CPU::cpy`. -/
def CPU.cpy (mode : AddrMode) (c : CPU) (m : Mem) : CPU × Mem × Nat :=
  let fetched := CPU.fetch mode c m
  ({c with p := set_compare_flags c.p (wsub16 c.y fetched)}, m, 0)

/-- From `CPU::dec`. -/
def CPU.dec (mode : AddrMode) (c : CPU) (m : Mem) : CPU × Mem × Nat :=
  let result := ((CPU.fetch mode c m) + 255) % 256
  let m1 := Bus.write m c.addr_abs result
  let p1 := set_flag c.p StatusFlags.ZERO (result == 0)
  let p2 := set_flag p1 StatusFlags.NEGATIVE (result &&& 0x80 != 0)
  ({c with p := p2}, m1, 0)

/-- From `CPU::dex`. -/
def CPU.dex (_mode : AddrMode) (c : CPU) (m : Mem) : CPU × Mem × Nat :=
  let x1 := (c.x + 255) % 256
  let p1 := set_flag c.p StatusFlags.ZERO (x1 == 0)
  let p2 := set_flag p1 StatusFlags.NEGATIVE (x1 &&& 0x80 != 0)
  ({c with x := x1, p := p2}, m, 0)

/-- From `CPU::dey`. -/
def CPU.dey (_mode : AddrMode) (c : CPU) (m : Mem) : CPU × Mem × Nat :=
  let y1 := (c.y + 255) % 256
  let p1 := set_flag c.p StatusFlags.ZERO (y1 == 0)
  let p2 := set_flag p1 StatusFlags.NEGATIVE (y1 &&& 0x80 != 0)
  ({c with y := y1, p := p2}, m, 0)

/-- From `CPU::eor`. -/
def CPU.eor (mode : AddrMode) (c : CPU) (m : Mem) : CPU × Mem × Nat :=
  let fetched := CPU.fetch mode c m
  let a1 := c.a ^^^ fetched
  let p1 := set_flag c.p StatusFlags.ZERO (a1 == 0)
  let p2 := set_flag p1 StatusFlags.NEGATIVE (a1 &&& 0x80 != 0)
  ({c with a := a1, p := p2}, m, 0)

/-- From `CPU::inc`. -/
def CPU.inc (mode : AddrMode) (c : CPU) (m : Mem) : CPU × Mem × Nat :=
  let result := ((CPU.fetch mode c m) + 1) % 256
  let m1 := Bus.write m c.addr_abs result
  let p1 := set_flag c.p StatusFlags.ZERO (result == 0)
  let p2 := set_flag p1 StatusFlags.NEGATIVE (result &&& 0x80 != 0)
  ({c with p := p2}, m1, 0)

/-- From `CPU::inx`. -/
def CPU.inx (_mode : AddrMode) (c : CPU) (m : Mem) : CPU × Mem × Nat :=
  let x1 := (c.x + 1) % 256
  let p1 := set_flag c.p StatusFlags.ZERO (x1 == 0)
  let p2 := set_flag p1 StatusFlags.NEGATIVE (x1 &&& 0x80 != 0)
  ({c with x := x1, p := p2}, m, 0)

/-- From `CPU::iny`. -/
def CPU.iny (_mode : AddrMode) (c : CPU) (m : Mem) : CPU × Mem × Nat :=
  let y1 := (c.y + 1) % 256
  let p1 := set_flag c.p StatusFlags.ZERO (y1 == 0)
  let p2 := set_flag p1 StatusFlags.NEGATIVE (y1 &&& 0x80 != 0)
  ({c with y := y1, p := p2}, m, 0)

/-- From `CPU::jmp`. -/
def CPU.jmp (_mode : AddrMode) (c : CPU) (m : Mem) : CPU × Mem × Nat :=
  ({c with pc := c.addr_abs}, m, 0)

/-- From `CPU::jsr`. -/
def CPU.jsr (_mode : AddrMode) (c : CPU) (m : Mem) : CPU × Mem × Nat :=
  let pc1 := (c.pc + 65535) % 65536
  let m1 := Bus.write m (0x100 + c.sp % 256) ((pc1 >>> 8) % 256)
  let sp1 := (c.sp + 255) % 256
  let m2 := Bus.write m1 (0x100 + sp1) (pc1 % 256)
  let sp2 := (sp1 + 255) % 256
  ({c with pc := c.addr_abs, sp := sp2}, m2, 0)

/-- From `CPU::lda`. -/
def CPU.lda (mode : AddrMode) (c : CPU) (m : Mem) : CPU × Mem × Nat :=
  let fetched := CPU.fetch mode c m
  let p1 := set_flag c.p StatusFlags.ZERO (fetched == 0)
  let p2 := set_flag p1 StatusFlags.NEGATIVE (fetched &&& 0x80 != 0)
  ({c with a := fetched, p := p2}, m, 0)

/-- From `CPU::ldx`. -/
def CPU.ldx (mode : AddrMode) (c : CPU) (m : Mem) : CPU × Mem × Nat :=
  let fetched := CPU.fetch mode c m
  let p1 := set_flag c.p StatusFlags.ZERO (fetched == 0)
  let p2 := set_flag p1 StatusFlags.NEGATIVE (fetched &&& 0x80 != 0)
  ({c with x := fetched, p := p2}, m, 0)

/-- From `CPU::ldy`. -/
def CPU.ldy (mode : AddrMode) (c : CPU) (m : Mem) : CPU × Mem × Nat :=
  let fetched := CPU.fetch mode c m
  let p1 := set_flag c.p StatusFlags.ZERO (fetched == 0)
  let p2 := set_flag p1 StatusFlags.NEGATIVE (fetched &&& 0x80 != 0)
  ({c with y := fetched, p := p2}, m, 0)

/-- From `CPU::lsr`. -/
def CPU.lsr (mode : AddrMode) (c : CPU) (m : Mem) : CPU × Mem × Nat :=
  let fetched := CPU.fetch mode c m
  let result := fetched >>> 1
  let p1 := set_flag c.p StatusFlags.CARRY (fetched &&& 0x01 != 0)
  let p2 := set_flag p1 StatusFlags.ZERO (result == 0)
  let p3 := set_flag p2 StatusFlags.NEGATIVE (result &&& 0x80 != 0)
  if mode = AddrMode.imp then ({c with a := result, p := p3}, m, 0)
  else ({c with p := p3}, Bus.write m c.addr_abs result, 0)

/-- From `CPU::nop`. -/
def CPU.nop (_mode : AddrMode) (c : CPU) (m : Mem) : CPU × Mem × Nat := (c, m, 0)

/-- From `CPU::ora`. -/
def CPU.ora (mode : AddrMode) (c : CPU) (m : Mem) : CPU × Mem × Nat :=
  let fetched := CPU.fetch mode c m
  let a1 := c.a ||| fetched
  let p1 := set_flag c.p StatusFlags.ZERO (a1 == 0)
  let p2 := set_flag p1 StatusFlags.NEGATIVE (a1 &&& 0x80 != 0)
  ({c with a := a1, p := p2}, m, 1)

/-- From `CPU::pha`. -/
def CPU.pha (_mode : AddrMode) (c : CPU) (m : Mem) : CPU × Mem × Nat :=
  ({c with sp := (c.sp + 255) % 256}, Bus.write m (0x100 + c.sp % 256) c.a, 0)

/-- From `CPU::php`: push `P | B | U`, then clear B. -/
def CPU.php (_mode : AddrMode) (c : CPU) (m : Mem) : CPU × Mem × Nat :=
  let m1 := Bus.write m (0x100 + c.sp % 256)
    (c.p ||| StatusFlags.BREAK ||| StatusFlags.UNUSED)
  ({c with sp := (c.sp + 255) % 256,
           p := set_flag c.p StatusFlags.BREAK false}, m1, 0)

/-- From `CPU::pla`. -/
def CPU.pla (_mode : AddrMode) (c : CPU) (m : Mem) : CPU × Mem × Nat :=
  let sp1 := (c.sp + 1) % 256
  let a1 := Bus.read m (0x100 + sp1)
  let p1 := set_flag c.p StatusFlags.ZERO (a1 == 0)
  let p2 := set_flag p1 StatusFlags.NEGATIVE (a1 &&& 0x80 != 0)
  ({c with sp := sp1, a := a1, p := p2}, m, 0)

/-- From `CPU::plp`: the pulled byte is ORed into `P` through mask 0xCF. -/
def CPU.plp (_mode : AddrMode) (c : CPU) (m : Mem) : CPU × Mem × Nat :=
  let sp1 := (c.sp + 1) % 256
  let temp := Bus.read m (0x100 + sp1)
  ({c with sp := sp1, p := c.p ||| (temp &&& 0xCF)}, m, 0)

/-- From `CPU::rol`. -/
def CPU.rol (mode : AddrMode) (c : CPU) (m : Mem) : CPU × Mem × Nat :=
  let fetched := CPU.fetch mode c m
  let carry := if has_flag c.p StatusFlags.CARRY then 1 else 0
  let result := ((fetched <<< 1) % 256) ||| carry
  let p1 := set_flag c.p StatusFlags.CARRY (fetched &&& 0x80 != 0)
  let p2 := set_flag p1 StatusFlags.ZERO (result == 0)
  let p3 := set_flag p2 StatusFlags.NEGATIVE (result &&& 0x80 != 0)
  if mode = AddrMode.imp then ({c with a := result, p := p3}, m, 0)
  else ({c with p := p3}, Bus.write m c.addr_abs result, 0)

/-- From `CPU::ror`. -/
def CPU.ror (mode : AddrMode) (c : CPU) (m : Mem) : CPU × Mem × Nat :=
  let fetched := CPU.fetch mode c m
  let carry := if has_flag c.p StatusFlags.CARRY then 1 else 0
  let result := (carry <<< 7) ||| (fetched >>> 1)
  let p1 := set_flag c.p StatusFlags.CARRY (fetched &&& 0x01 != 0)
  let p2 := set_flag p1 StatusFlags.ZERO (result == 0)
  let p3 := set_flag p2 StatusFlags.NEGATIVE (result &&& 0x80 != 0)
  if mode = AddrMode.imp then ({c with a := result, p := p3}, m, 0)
  else ({c with p := p3}, Bus.write m c.addr_abs result, 0)

/-- From `CPU::rti`: pull the status byte (ORed in through mask 0xCF), then
pull PC low and high. -/
def CPU.rti (_mode : AddrMode) (c : CPU) (m : Mem) : CPU × Mem × Nat :=
  let sp1 := (c.sp + 1) % 256
  let temp := Bus.read m (0x100 + sp1)
  let p1 := c.p ||| (temp &&& 0xCF)
  let sp2 := (sp1 + 1) % 256
  let lo := Bus.read m (0x100 + sp2)
  let sp3 := (sp2 + 1) % 256
  let hi := Bus.read m (0x100 + sp3)
  ({c with sp := sp3, p := p1, pc := (hi <<< 8) ||| lo}, m, 0)

/-- From `CPU::rts`. -/
def CPU.rts (_mode : AddrMode) (c : CPU) (m : Mem) : CPU × Mem × Nat :=
  let sp1 := (c.sp + 1) % 256
  let lo := Bus.read m (0x100 + sp1)
  let sp2 := (sp1 + 1) % 256
  let hi := Bus.read m (0x100 + sp2)
  ({c with sp := sp2, pc := (((hi <<< 8) ||| lo) + 1) % 65536}, m, 0)

/-- From `CPU::sbc`: add the bitwise-inverted operand. -/
def CPU.sbc (mode : AddrMode) (c : CPU) (m : Mem) : CPU × Mem × Nat :=
  let fetched := CPU.fetch mode c m
  let inverted := fetched ^^^ 0xFF
  let carry := if has_flag c.p StatusFlags.CARRY then 1 else 0
  let result := (c.a + inverted + carry) % 65536
  let p1 := set_flag c.p StatusFlags.CARRY (result &&& 0xFF00 != 0)
  let p2 := set_flag p1 StatusFlags.ZERO (result &&& 0x00FF == 0)
  let p3 := set_flag p2 StatusFlags.NEGATIVE (result &&& 0x0080 != 0)
  let p4 := set_flag p3 StatusFlags.OVERFLOW (calc_overflow c.a inverted result)
  ({c with a := result % 256, p := p4}, m, 1)

/-- From `CPU::sec`. -/
def CPU.sec (_mode : AddrMode) (c : CPU) (m : Mem) : CPU × Mem × Nat :=
  ({c with p := set_flag c.p StatusFlags.CARRY true}, m, 0)

/-- From `CPU::sed`. -/
def CPU.sed (_mode : AddrMode) (c : CPU) (m : Mem) : CPU × Mem × Nat :=
  ({c with p := set_flag c.p StatusFlags.DECIMAL true}, m, 0)

/-- From `CPU::sei`. -/
def CPU.sei (_mode : AddrMode) (c : CPU) (m : Mem) : CPU × Mem × Nat :=
  ({c with p := set_flag c.p StatusFlags.INTERRUPT_DISABLE true}, m, 0)

/-- From `CPU::sta`. -/
def CPU.sta (_mode : AddrMode) (c : CPU) (m : Mem) : CPU × Mem × Nat :=
  (c, Bus.write m c.addr_abs c.a, 0)

/-- From `CPU::stx`. -/
def CPU.stx (_mode : AddrMode) (c : CPU) (m : Mem) : CPU × Mem × Nat :=
  (c, Bus.write m c.addr_abs c.x, 0)

/-- From `CPU::sty`. -/
def CPU.sty (_mode : AddrMode) (c : CPU) (m : Mem) : CPU × Mem × Nat :=
  (c, Bus.write m c.addr_abs c.y, 0)

/-- From `CPU::tax`. -/
def CPU.tax (_mode : AddrMode) (c : CPU) (m : Mem) : CPU × Mem × Nat :=
  let x1 := c.a
  let p1 := set_flag c.p StatusFlags.ZERO (x1 == 0)
  let p2 := set_flag p1 StatusFlags.NEGATIVE (x1 &&& 0x80 != 0)
  ({c with x := x1, p := p2}, m, 0)

/-- From `CPU::tay`. -/
def CPU.tay (_mode : AddrMode) (c : CPU) (m : Mem) : CPU × Mem × Nat :=
  let y1 := c.a
  let p1 := set_flag c.p StatusFlags.ZERO (y1 == 0)
  let p2 := set_flag p1 StatusFlags.NEGATIVE (y1 &&& 0x80 != 0)
  ({c with y := y1, p := p2}, m, 0)

/-- From `CPU::tsx`. -/
def CPU.tsx (_mode : AddrMode) (c : CPU) (m : Mem) : CPU × Mem × Nat :=
  let x1 := c.sp
  let p1 := set_flag c.p StatusFlags.ZERO (x1 == 0)
  let p2 := set_flag p1 StatusFlags.NEGATIVE (x1 &&& 0x80 != 0)
  ({c with x := x1, p := p2}, m, 0)

/-- From `CPU::txa`. -/
def CPU.txa (_mode : AddrMode) (c : CPU) (m : Mem) : CPU × Mem × Nat :=
  let a1 := c.x
  let p1 := set_flag c.p StatusFlags.ZERO (a1 == 0)
  let p2 := set_flag p1 StatusFlags.NEGATIVE (a1 &&& 0x80 != 0)
  ({c with a := a1, p := p2}, m, 0)

/-- From `CPU::txs`. -/
def CPU.txs (_mode : AddrMode) (c : CPU) (m : Mem) : CPU × Mem × Nat :=
  ({c with sp := c.x}, m, 0)

/-- From `CPU::tya`. -/
def CPU.tya (_mode : AddrMode) (c : CPU) (m : Mem) : CPU × Mem × Nat :=
  let a1 := c.y
  let p1 := set_flag c.p StatusFlags.ZERO (a1 == 0)
  let p2 := set_flag p1 StatusFlags.NEGATIVE (a1 &&& 0x80 != 0)
  ({c with a := a1, p := p2}, m, 0)

/-- From `CPU::xxx` (illegal-opcode placeholder). -/
def CPU.xxx (_mode : AddrMode) (c : CPU) (m : Mem) : CPU × Mem × Nat := (c, m, 0)

/-- Operation tag: the 55 official operation handlers implemented in cpu.rs
plus the illegal-opcode placeholder `xxx`. -/
inductive Op where
  | adc | and | asl | bcc | bcs | beq | bit | bmi | bne | bpl | brk | bvc | bvs
  | clc | cld | cli | clv | cmp | cpx | cpy | dec | dex | dey | eor | inc | inx
  | iny | jmp | jsr | lda | ldx | ldy | lsr | nop | ora | pha | php | pla | plp
  | rol | ror | rti | rts | sbc | sec | sed | sei | sta | stx | sty | tax | tay
  | tsx | txa | txs | tya | xxx
deriving DecidableEq

/-- Dispatch an operation tag to its handler. -/
def runOp : Op → AddrMode → CPU → Mem → CPU × Mem × Nat
  | .adc, md, c, m => CPU.adc md c m
  | .and, md, c, m => CPU.and md c m
  | .asl, md, c, m => CPU.asl md c m
  | .bcc, md, c, m => CPU.bcc md c m
  | .bcs, md, c, m => CPU.bcs md c m
  | .beq, md, c, m => CPU.beq md c m
  | .bit, md, c, m => CPU.bit md c m
  | .bmi, md, c, m => CPU.bmi md c m
  | .bne, md, c, m => CPU.bne md c m
  | .bpl, md, c, m => CPU.bpl md c m
  | .brk, md, c, m => CPU.brk md c m
  | .bvc, md, c, m => CPU.bvc md c m
  | .bvs, md, c, m => CPU.bvs md c m
  | .clc, md, c, m => CPU.clc md c m
  | .cld, md, c, m => CPU.cld md c m
  | .cli, md, c, m => CPU.cli md c m
  | .clv, md, c, m => CPU.clv md c m
  | .cmp, md, c, m => CPU.cmp md c m
  | .cpx, md, c, m => CPU.cpx md c m
  | .cpy, md, c, m => CPU.cpy md c m
  | .dec, md, c, m => CPU.dec md c m
  | .dex, md, c, m => CPU.dex md c m
  | .dey, md, c, m => CPU.dey md c m
  | .eor, md, c, m => CPU.eor md c m
  | .inc, md, c, m => CPU.inc md c m
  | .inx, md, c, m => CPU.inx md c m
  | .iny, md, c, m => CPU.iny md c m
  | .jmp, md, c, m => CPU.jmp md c m
  | .jsr, md, c, m => CPU.jsr md c m
  | .lda, md, c, m => CPU.lda md c m
  | .ldx, md, c, m => CPU.ldx md c m
  | .ldy, md, c, m => CPU.ldy md c m
  | .lsr, md, c, m => CPU.lsr md c m
  | .nop, md, c, m => CPU.nop md c m
  | .ora, md, c, m => CPU.ora md c m
  | .pha, md, c, m => CPU.pha md c m
  | .php, md, c, m => CPU.php md c m
  | .pla, md, c, m => CPU.pla md c m
  | .plp, md, c, m => CPU.plp md c m
  | .rol, md, c, m => CPU.rol md c m
  | .ror, md, c, m => CPU.ror md c m
  | .rti, md, c, m => CPU.rti md c m
  | .rts, md, c, m => CPU.rts md c m
  | .sbc, md, c, m => CPU.sbc md c m
  | .sec, md, c, m => CPU.sec md c m
  | .sed, md, c, m => CPU.sed md c m
  | .sei, md, c, m => CPU.sei md c m
  | .sta, md, c, m => CPU.sta md c m
  | .stx, md, c, m => CPU.stx md c m
  | .sty, md, c, m => CPU.sty md c m
  | .tax, md, c, m => CPU.tax md c m
  | .tay, md, c, m => CPU.tay md c m
  | .tsx, md, c, m => CPU.tsx md c m
  | .txa, md, c, m => CPU.txa md c m
  | .txs, md, c, m => CPU.txs md c m
  | .tya, md, c, m => CPU.tya md c m
  | .xxx, md, c, m => CPU.xxx md c m

/-- Modelled from the spec: the `instructions` module referenced by cpu.rs
(`crate::instructions::{AddrMode, Instruction, get_instruction}`) is not among
the sources. Per spec section 4.1 each of the 256 table entries pairs one of the
addressing modes with one of the 56 operations and a base cycle count, so an
instruction-table row is modelled as this record and `CPU.step` is
parameterised over an arbitrary such table. -/
structure Instr where
  mode : AddrMode
  op : Op
  cycles : Nat
deriving DecidableEq

/-- From `CPU::step`: while `cycles > 0` just decrement (saturating) and
return; otherwise fetch, decode through the table, run the addressing mode
then the operation, add the combined page-cross penalty (`u8` AND of the two
returned values), and consume this tick. -/
def CPU.step (tbl : Nat → Instr) (c : CPU) (m : Mem) : CPU × Mem :=
  if 0 < c.cycles then ({c with cycles := c.cycles - 1}, m)
  else
    let c1 := {c with opcode := Bus.read m c.pc, pc := (c.pc + 1) % 65536}
    let i := tbl c1.opcode
    let c2 := {c1 with cycles := i.cycles}
    let ma := runMode i.mode c2 m
    let ro := runOp i.op i.mode ma.1 m
    ({ro.1 with cycles := ((ro.1.cycles + (ma.2 &&& ro.2.2)) % 256) - 1}, ro.2.1)

/-- From `CPU::reset`: load `PC` from the reset vector at 0xFFFC/0xFFFD, zero
the registers, set `SP = 0xFD`, `P = U`, and schedule 8 cycles. -/
def CPU.reset (c : CPU) (m : Mem) : CPU :=
  let lo := Bus.read m 0xFFFC
  let hi := Bus.read m 0xFFFD
  {c with pc := (hi <<< 8) ||| lo, a := 0, x := 0, y := 0, sp := 0xFD,
          p := StatusFlags.UNUSED, addr_abs := 0, addr_rel := 0, cycles := 8}

/-- From `CPU::irq`: if I is set, no-op; otherwise push PC high, PC low, then
the raw `P`, clear B and set I in `P`, and load `PC` from 0xFFFE/0xFFFF. -/
def CPU.irq (c : CPU) (m : Mem) : CPU × Mem :=
  if has_flag c.p StatusFlags.INTERRUPT_DISABLE then (c, m)
  else
    let m1 := Bus.write m (0x100 + c.sp % 256) ((c.pc >>> 8) % 256)
    let sp1 := (c.sp + 255) % 256
    let m2 := Bus.write m1 (0x100 + sp1) (c.pc % 256)
    let sp2 := (sp1 + 255) % 256
    let m3 := Bus.write m2 (0x100 + sp2) c.p
    let sp3 := (sp2 + 255) % 256
    let p1 := set_flag c.p StatusFlags.BREAK false
    let p2 := set_flag p1 StatusFlags.INTERRUPT_DISABLE true
    let lo := Bus.read m3 0xFFFE
    let hi := Bus.read m3 0xFFFF
    ({c with pc := (hi <<< 8) ||| lo, sp := sp3, p := p2, cycles := 7}, m3)

/-- From `CPU::nmi`: like `irq` but unconditional, vector at 0xFFFA/0xFFFB,
8 cycles. -/
def CPU.nmi (c : CPU) (m : Mem) : CPU × Mem :=
  let m1 := Bus.write m (0x100 + c.sp % 256) ((c.pc >>> 8) % 256)
  let sp1 := (c.sp + 255) % 256
  let m2 := Bus.write m1 (0x100 + sp1) (c.pc % 256)
  let sp2 := (sp1 + 255) % 256
  let m3 := Bus.write m2 (0x100 + sp2) c.p
  let sp3 := (sp2 + 255) % 256
  let p1 := set_flag c.p StatusFlags.BREAK false
  let p2 := set_flag p1 StatusFlags.INTERRUPT_DISABLE true
  let lo := Bus.read m3 0xFFFA
  let hi := Bus.read m3 0xFFFB
  ({c with pc := (hi <<< 8) ||| lo, sp := sp3, p := p2, cycles := 8}, m3)

/-- From the `Mirroring` enum in cartridge.rs. -/
inductive Mirroring where
  | horizontal | vertical | fourScreen
deriving DecidableEq

/-- From `get_mirroring` in cartridge.rs. -/
def get_mirroring (flag6 : Nat) : Mirroring :=
  if flag6 &&& 0x08 != 0 then Mirroring.fourScreen
  else if flag6 &&& 0x01 != 0 then Mirroring.vertical
  else Mirroring.horizontal

/-- From `MapperKind` in mapper.rs (only NROM exists). -/
inductive MapperKind where
  | nrom
deriving DecidableEq

/-- From `MapperKind::from_id`. -/
def MapperKind.from_id (mapper_id : Nat) : Option MapperKind :=
  if mapper_id = 0 then some MapperKind.nrom else none

/-- From `CartridgeState` in cartridge.rs. -/
structure CartridgeState where
  prg_ram : List Nat
  mirroring : Mirroring
deriving DecidableEq

/-- From `struct Cartridge` in cartridge.rs. -/
structure Cartridge where
  nb_prg_banks : Nat
  prg_rom : List Nat
  chr_rom : List Nat
  prg_ram_size : Nat
  state : CartridgeState
  mapper : MapperKind
deriving DecidableEq

/-- The mapped PRG-ROM index computed by `NromMapper::cpu_read` for an address
at or above 0x8000: `offset = addr - 0x8000`, mirrored into the low 16 KiB when
only one PRG bank is present. -/
def nromMappedAddr (cart : Cartridge) (addr : Nat) : Nat :=
  let offset := addr - 0x8000
  if cart.nb_prg_banks = 1 then offset &&& 0x3FFF else offset

/-- From `NromMapper::cpu_read`: `let offset = addr - ADDR_PRG_ROM;` is an
unsigned (`usize`) subtraction, which underflows for `addr < 0x8000` (a panic
in debug builds); that case is modelled as `none`. In range, out-of-bounds
PRG-ROM indices read as 0 (`.get(..).copied().unwrap_or(0)`). -/
def NromMapper.cpu_read (addr : Nat) (cart : Cartridge) : Option Nat :=
  if addr < 0x8000 then none
  else some (cart.prg_rom.getD (nromMappedAddr cart addr) 0)

/-- From the `Mapper` impl for `MapperKind`: delegate to the variant. -/
def MapperKind.cpu_read (k : MapperKind) (addr : Nat) (cart : Cartridge) :
    Option Nat :=
  match k with
  | .nrom => NromMapper.cpu_read addr cart

/-- From `Cartridge::cpu_read`: delegate to the mapper. -/
def Cartridge.cpu_read (cart : Cartridge) (addr : Nat) : Option Nat :=
  cart.mapper.cpu_read addr cart

/-- From `struct Bus` in nes/bus.rs: 64 KiB RAM plus the cartridge (the PPU
register struct is empty and omitted). -/
structure NesBus where
  ram : Mem
  cartridge : Cartridge

/-- From `Bus::cpu_read` in nes/bus.rs. Note that every branch reads from the
internal `ram` array (or returns 0); the cartridge field is never consulted. -/
def NesBus.cpu_read (b : NesBus) (addr : Nat) : Nat :=
  if addr < 0x2000 then Bus.read b.ram (addr &&& 0x07FF)
  else if addr < 0x4000 then Bus.read b.ram (0x2000 + (addr &&& 0x0007))
  else if addr < 0x4017 then Bus.read b.ram addr
  else if 0x8000 ≤ addr then Bus.read b.ram addr
  else 0

/-- From `Bus::cpu_write` in nes/bus.rs: only internal-RAM writes land;
everything else is dropped. -/
def NesBus.cpu_write (b : NesBus) (addr data : Nat) : NesBus :=
  if addr < 0x2000 then {b with ram := Bus.write b.ram (addr &&& 0x07FF) data}
  else b

/-- Load-error cases of `Cartridge::from_rom` (io::Error messages). -/
inductive RomError where
  | invalidHeader
  | unsupportedMapper
  | tooSmall
deriving DecidableEq

/-- Result of `Cartridge::from_rom` on an in-memory buffer: `ok`, a returned
load error, or a Rust panic (out-of-bounds slice or index). -/
inductive RomResult where
  | panicked
  | err (e : RomError)
  | ok (cart : Cartridge)
deriving DecidableEq

/-- From `Cartridge::from_rom`, applied to the byte buffer read from the file.
Every slice and index operation of the source is guarded here by the exact
bound under which Rust would panic, in source order:
`&buffer[0..4]`, then `buffer[4]`..`buffer[7]`, then the mapper lookup, then
`buffer[8]`, then the declared-size check (which ignores the trainer), then
the PRG and CHR slices starting at `16 + 512*trainer`. -/
def Cartridge.from_rom (buffer : List Nat) : RomResult :=
  if buffer.length < 4 then RomResult.panicked
  else if ¬ (buffer.take 4 = [0x4E, 0x45, 0x53, 0x1A]) then
    RomResult.err RomError.invalidHeader
  else if buffer.length ≤ 7 then RomResult.panicked
  else
    let nb_prg_banks := buffer.getD 4 0
    let prg_size := nb_prg_banks * 16 * 1024
    let chr_size := buffer.getD 5 0 * 8 * 1024
    let flag6 := buffer.getD 6 0
    let flag7 := buffer.getD 7 0
    let mapper_id := (flag7 &&& 0xF0) ||| (flag6 >>> 4)
    match MapperKind.from_id mapper_id with
    | none => RomResult.err RomError.unsupportedMapper
    | some mapper =>
      if buffer.length ≤ 8 then RomResult.panicked
      else
        let prg_ram_size := if buffer.getD 8 0 = 0 then 1 else buffer.getD 8 0
        if buffer.length < 16 + prg_size + chr_size then
          RomResult.err RomError.tooSmall
        else
          let has_trainer := flag6 &&& 0x04 != 0
          let prg_start := 16 + if has_trainer then 512 else 0
          if buffer.length < prg_start + prg_size then RomResult.panicked
          else if buffer.length < prg_start + prg_size + chr_size then
            RomResult.panicked
          else
            let prg_rom := (buffer.drop prg_start).take prg_size
            let chr_rom := (buffer.drop (prg_start + prg_size)).take chr_size
            RomResult.ok
              { nb_prg_banks := nb_prg_banks
                prg_rom := prg_rom
                chr_rom := chr_rom
                prg_ram_size := prg_ram_size
                state := { prg_ram := [], mirroring := get_mirroring flag6 }
                mapper := mapper }

/-- Every `set_flag` result has the UNUSED bit (bit 5) set, because the
function unconditionally ORs `UNUSED` back in. -/
theorem set_flag_testBit5 (p flag : Nat) (v : Bool) :
    (set_flag p flag v).testBit 5 = true := by
  have h32 : Nat.testBit 32 5 = true := by decide
  unfold set_flag StatusFlags.UNUSED
  simp [Nat.testBit_or, h32]

/-- ORing anything into `P` preserves the UNUSED bit. -/
theorem or_testBit5 (p x : Nat) (h : p.testBit 5 = true) :
    (p ||| x).testBit 5 = true := by
  simp [Nat.testBit_or, h]

/-- A high byte shifted into place ORed with a low byte below 256 is the
little-endian word value. -/
theorem hilo (h l : Nat) (hl : l < 256) : (h <<< 8) ||| l = 256 * h + l := by
  have hl' : l < 2 ^ 8 := by omega
  calc (h <<< 8) ||| l = h * 2 ^ 8 ||| l := by rw [Nat.shiftLeft_eq]
    _ = 2 ^ 8 * h ||| l := by rw [Nat.mul_comm]
    _ = 2 ^ 8 * h + l := (Nat.mul_add_lt_is_or hl' h).symm
    _ = 256 * h + l := by norm_num

/-- A bus read is always a byte. -/
theorem Bus.read_lt (m : Mem) (addr : Nat) : Bus.read m addr < 256 :=
  Nat.mod_lt _ (by decide)

/-- Addressing-mode handlers never touch the status register. -/
theorem runMode_p (md : AddrMode) (c : CPU) (m : Mem) :
    ((runMode md c m).1).p = c.p := by
  cases md <;>
    simp only [runMode, CPU.imp, CPU.imm, CPU.zp0, CPU.zpx, CPU.zpy, CPU.rel,
      CPU.abs, CPU.abx, CPU.aby, CPU.ind, CPU.izx, CPU.izy] <;>
    (try split) <;> rfl

set_option maxHeartbeats 2000000 in
/-- Every operation handler leaves the UNUSED bit of `P` set if it was set:
each handler either routes its flag mutations through `set_flag` (which re-ORs
UNUSED in), only ORs bits into `P` (`plp`, `rti`), or leaves `P` alone. -/
theorem runOp_testBit5 (op : Op) (md : AddrMode) (c : CPU) (m : Mem)
    (h : c.p.testBit 5 = true) : ((runOp op md c m).1).p.testBit 5 = true := by
  cases op <;>
    simp only [runOp, CPU.adc, CPU.and, CPU.asl, CPU.bcc, CPU.bcs, CPU.beq,
      CPU.bit, CPU.bmi, CPU.bne, CPU.bpl, CPU.brk, CPU.bvc, CPU.bvs, CPU.clc,
      CPU.cld, CPU.cli, CPU.clv, CPU.cmp, CPU.cpx, CPU.cpy, CPU.dec, CPU.dex,
      CPU.dey, CPU.eor, CPU.inc, CPU.inx, CPU.iny, CPU.jmp, CPU.jsr, CPU.lda,
      CPU.ldx, CPU.ldy, CPU.lsr, CPU.nop, CPU.ora, CPU.pha, CPU.php, CPU.pla,
      CPU.plp, CPU.rol, CPU.ror, CPU.rti, CPU.rts, CPU.sbc, CPU.sec, CPU.sed,
      CPU.sei, CPU.sta, CPU.stx, CPU.sty, CPU.tax, CPU.tay, CPU.tsx, CPU.txa,
      CPU.txs, CPU.tya, CPU.xxx, CPU.branch_taken, set_compare_flags] <;>
    (try split) <;>
    first
      | exact h
      | apply set_flag_testBit5
      | exact or_testBit5 _ _ h

/-- Reading through a write: the cell written is returned mod 256. -/
theorem Bus.read_write (m : Mem) (a d b : Nat) :
    Bus.read (Bus.write m a d) b = if b = a then d % 256 else Bus.read m b := by
  unfold Bus.read Bus.write
  split <;> rfl

/-- `reset` sets `P = UNUSED`, so bit 5 is set. -/
theorem reset_testBit5 (c : CPU) (m : Mem) :
    ((CPU.reset c m).p).testBit 5 = true := by
  show Nat.testBit StatusFlags.UNUSED 5 = true
  decide

/-- `step` preserves the UNUSED bit: the busy branch leaves `P` alone, the
execute branch routes `P` through the addressing mode (no effect) and the
operation handler (preserves it). -/
theorem step_testBit5 (tbl : Nat → Instr) (c : CPU) (m : Mem)
    (h : (c.p).testBit 5 = true) :
    (((CPU.step tbl c m).1).p).testBit 5 = true := by
  unfold CPU.step
  split
  · exact h
  · apply runOp_testBit5
    rw [runMode_p]
    exact h

/-- `irq` preserves the UNUSED bit. -/
theorem irq_testBit5 (c : CPU) (m : Mem) (h : (c.p).testBit 5 = true) :
    (((CPU.irq c m).1).p).testBit 5 = true := by
  unfold CPU.irq
  split
  · exact h
  · apply set_flag_testBit5

/-- `nmi` ends with `set_flag`, so bit 5 of the resulting `P` is set. -/
theorem nmi_testBit5 (c : CPU) (m : Mem) :
    (((CPU.nmi c m).1).p).testBit 5 = true := by
  apply set_flag_testBit5

/-- C7: in every CPU state reachable from reset, bit 5 (U) of the status
register is 1: `reset` establishes it (`P = UNUSED`), and `step` (under any
instruction table), `irq` and `nmi` all preserve it, because every flag
mutation either goes through `set_flag` (which re-ORs UNUSED in) or only ORs
bits into `P`. -/
theorem C7_unused_bit_invariant :
    (∀ c m, ((CPU.reset c m).p).testBit 5 = true) ∧
    (∀ tbl c m, (c.p).testBit 5 = true →
      (((CPU.step tbl c m).1).p).testBit 5 = true) ∧
    (∀ c m, (c.p).testBit 5 = true →
      (((CPU.irq c m).1).p).testBit 5 = true) ∧
    (∀ c m, (((CPU.nmi c m).1).p).testBit 5 = true) :=
  ⟨reset_testBit5, step_testBit5, irq_testBit5, nmi_testBit5⟩

/-- A concrete instruction table for witnesses: every opcode is a 2-cycle
implicit NOP. -/
def tbl0 : Nat → Instr := fun _ => ⟨AddrMode.imp, Op.nop, 2⟩

/-- A concrete post-reset-like CPU state for witnesses
(`P = 0x24`, `SP = 0xFD`, `PC = 0x8000`). -/
def cW : CPU := ⟨0, 0, 0, 0xFD, 0x8000, 0x24, 0, 0, 0, 0⟩

/-- The all-zero memory. -/
def mW : Mem := fun _ => 0

/-- Witness for C7 at a concrete state with `P = 0x24`. -/
theorem C7_unused_bit_invariant_witness :
    ((cW.p).testBit 5 = true) ∧
    (((CPU.step tbl0 cW mW).1).p).testBit 5 = true ∧
    (((CPU.irq cW mW).1).p).testBit 5 = true :=
  ⟨by decide, C7_unused_bit_invariant.2.1 tbl0 cW mW (by decide),
    C7_unused_bit_invariant.2.2.1 cW mW (by decide)⟩

/-- C8: when `cycles > 0`, `step` only decrements `cycles` by exactly one
(`saturating_sub(1)` with a positive value) and leaves every other field —
PC, A, X, Y, SP, P, addr_abs, addr_rel, opcode — and the whole bus memory
unchanged. `cycles` is a `u8`, embedded as `Nat`, so it can never be
negative. -/
theorem C8_step_busy_tick (tbl : Nat → Instr) (c : CPU) (m : Mem)
    (h : 0 < c.cycles) :
    CPU.step tbl c m = ({c with cycles := c.cycles - 1}, m) := by
  unfold CPU.step
  rw [if_pos h]

/-- A concrete mid-instruction CPU state (3 cycles pending) for witnesses. -/
def cBusy : CPU := ⟨1, 2, 3, 0xFD, 0x8000, 0x24, 5, 6, 7, 3⟩

/-- Witness for C8 at a concrete state with `cycles = 3`. -/
theorem C8_step_busy_tick_witness :
    0 < cBusy.cycles ∧
    CPU.step tbl0 cBusy mW = ({cBusy with cycles := cBusy.cycles - 1}, mW) :=
  ⟨by decide, C8_step_busy_tick tbl0 cBusy mW (by decide)⟩

/-- A CPU state poised to execute BIT on the operand at 0x0010. -/
def cBit : CPU := ⟨0, 0, 0, 0xFD, 0x8000, 0, 0x10, 0, 0, 0⟩

/-- Memory holding operand byte 0xC0 at address 0x0010. -/
def mBit : Mem := fun a => if a = 0x10 then 0xC0 else 0

/-- C1: the code computes BIT's V and N flags from `result = A & M`, not from
the operand `M`. At `A = 0x00`, `M = 0xC0` the operand has bits 6 and 7 set,
yet the executed BIT leaves both V (bit 6) and N (bit 7) clear, because
`A & M = 0`. (Z is set from `A & M == 0` as claimed.) -/
theorem C1_bit_flags_from_result_not_operand :
    Bus.read mBit cBit.addr_abs = 0xC0 ∧
    Nat.testBit 0xC0 6 = true ∧
    Nat.testBit 0xC0 7 = true ∧
    (((CPU.bit AddrMode.abs cBit mBit).1).p).testBit 6 = false ∧
    (((CPU.bit AddrMode.abs cBit mBit).1).p).testBit 7 = false ∧
    (((CPU.bit AddrMode.abs cBit mBit).1).p).testBit 1 = true := by
  decide

/-- A CPU state with the carry flag set in `P`, about to execute RTI over
all-zero memory. -/
def cRti : CPU := ⟨0, 0, 0, 0xFD, 0x8000, 0x01, 0, 0, 0, 0⟩

/-- C2 counterexample: `CPU::rti` merges the pulled status byte into `P` with
`p |= temp & 0xCF` instead of replacing those bits. Pulling a status byte 0
over a state whose carry bit is set leaves carry set, so bit 0 of `P` after
RTI is not equal to bit 0 of the pulled byte. -/
theorem C2_rti_counterexample :
    Bus.read mW (0x100 + (cRti.sp + 1) % 256) = 0 ∧
    (((CPU.rti AddrMode.imp cRti mW).1).p).testBit 0 = true := by
  decide

/-- C2 amended: after RTI, `P` equals the previous `P` ORed with
`pulled & 0xCF` — bits 0–3 and 6–7 become the OR of their previous values
with those of the pulled byte, and bits 4–5 (B, U) keep their previous
values — and `PC` equals the little-endian word formed from the two bytes
pulled next (lo then hi). -/
theorem C2_rti_or_semantics (c : CPU) (m : Mem) :
    ((CPU.rti AddrMode.imp c m).1).p
      = c.p ||| (Bus.read m (0x100 + (c.sp + 1) % 256) &&& 0xCF) ∧
    (((CPU.rti AddrMode.imp c m).1).p).testBit 4 = (c.p).testBit 4 ∧
    (((CPU.rti AddrMode.imp c m).1).p).testBit 5 = (c.p).testBit 5 ∧
    ((CPU.rti AddrMode.imp c m).1).pc
      = 256 * Bus.read m (0x100 + (c.sp + 3) % 256)
        + Bus.read m (0x100 + (c.sp + 2) % 256) := by
  have h2 : ((c.sp + 1) % 256 + 1) % 256 = (c.sp + 2) % 256 := by omega
  have h3 : (((c.sp + 1) % 256 + 1) % 256 + 1) % 256 = (c.sp + 3) % 256 := by
    omega
  have hb4 : Nat.testBit 0xCF 4 = false := by decide
  have hb5 : Nat.testBit 0xCF 5 = false := by decide
  refine ⟨rfl, ?_, ?_, ?_⟩
  · show (c.p ||| (Bus.read m (0x100 + (c.sp + 1) % 256) &&& 0xCF)).testBit 4
      = (c.p).testBit 4
    simp [Nat.testBit_or, Nat.testBit_and, hb4]
  · show (c.p ||| (Bus.read m (0x100 + (c.sp + 1) % 256) &&& 0xCF)).testBit 5
      = (c.p).testBit 5
    simp [Nat.testBit_or, Nat.testBit_and, hb5]
  · show (Bus.read m (0x100 + (((c.sp + 1) % 256 + 1) % 256 + 1) % 256) <<< 8)
        ||| Bus.read m (0x100 + ((c.sp + 1) % 256 + 1) % 256)
      = 256 * Bus.read m (0x100 + (c.sp + 3) % 256)
        + Bus.read m (0x100 + (c.sp + 2) % 256)
    have h3' : ((c.sp + 2) % 256 + 1) % 256 = (c.sp + 3) % 256 := by omega
    rw [h2, h3', hilo _ _ (Bus.read_lt _ _)]

/-- C9: when the low byte of the indirect pointer is 0xFF, the indirect
addressing mode reads the target's low byte from the pointer address and its
high byte from `pointer & 0xFF00` (same page) rather than `pointer + 1`, and
JMP then sets `PC` to that page-wrapped little-endian word. -/
theorem C9_ind_jmp_page_wrap (c : CPU) (m : Mem)
    (hlo : Bus.read m c.pc = 0xFF) :
    ((CPU.ind c m).1).addr_abs
      = 256 * Bus.read m
            (((Bus.read m ((c.pc + 1) % 65536) <<< 8) ||| 0xFF) &&& 0xFF00)
        + Bus.read m ((Bus.read m ((c.pc + 1) % 65536) <<< 8) ||| 0xFF) ∧
    ((CPU.jmp AddrMode.ind ((CPU.ind c m).1) m).1).pc
      = 256 * Bus.read m
            (((Bus.read m ((c.pc + 1) % 65536) <<< 8) ||| 0xFF) &&& 0xFF00)
        + Bus.read m ((Bus.read m ((c.pc + 1) % 65536) <<< 8) ||| 0xFF) := by
  have h1 : ((CPU.ind c m).1).addr_abs
      = 256 * Bus.read m
            (((Bus.read m ((c.pc + 1) % 65536) <<< 8) ||| 0xFF) &&& 0xFF00)
        + Bus.read m ((Bus.read m ((c.pc + 1) % 65536) <<< 8) ||| 0xFF) := by
    simp only [CPU.ind, hlo]
    norm_num
    exact hilo _ _ (Bus.read_lt _ _)
  exact ⟨h1, h1⟩

/-- Memory for the C9 witness: program `JMP ($10FF)` operand bytes at
0x8001/0x8002, target low byte 0x80 at 0x10FF, high byte 0x40 at 0x1000,
and a decoy byte at 0x1100. -/
def mInd : Mem := fun a =>
  if a = 0x8001 then 0xFF
  else if a = 0x8002 then 0x10
  else if a = 0x10FF then 0x80
  else if a = 0x1000 then 0x40
  else if a = 0x1100 then 0x55
  else 0

/-- A CPU state whose PC points at the operand bytes of `JMP ($10FF)`. -/
def cInd : CPU := ⟨0, 0, 0, 0xFD, 0x8001, 0x24, 0, 0, 0x6C, 0⟩

/-- Witness for C9: the page-wrapped word is 0x4080 (not a byte from 0x1100). -/
theorem C9_ind_jmp_page_wrap_witness :
    Bus.read mInd cInd.pc = 0xFF ∧
    ((CPU.ind cInd mInd).1).addr_abs
      = 256 * Bus.read mInd
            (((Bus.read mInd ((cInd.pc + 1) % 65536) <<< 8) ||| 0xFF) &&& 0xFF00)
        + Bus.read mInd ((Bus.read mInd ((cInd.pc + 1) % 65536) <<< 8) ||| 0xFF) ∧
    256 * Bus.read mInd
          (((Bus.read mInd ((cInd.pc + 1) % 65536) <<< 8) ||| 0xFF) &&& 0xFF00)
      + Bus.read mInd ((Bus.read mInd ((cInd.pc + 1) % 65536) <<< 8) ||| 0xFF)
      = 0x4080 :=
  ⟨by decide, (C9_ind_jmp_page_wrap cInd mInd (by decide)).1, by decide⟩

/-- A CPU state whose `P` has B (bit 4) set and U (bit 5) clear, used to show
that interrupts push `P` unmodified. -/
def cNmi : CPU := ⟨0, 0, 0, 0xFD, 0xC000, 0x10, 0, 0, 0, 0⟩

/-- C3 counterexample: `irq`/`nmi` push the raw `P` *before* clearing B, so
from a state with `P = 0x10` the status byte pushed by `nmi` has B (bit 4)
set and U (bit 5) clear — not B = 0, U = 1 as claimed. -/
theorem C3_nmi_counterexample :
    (Bus.read (CPU.nmi cNmi mW).2 (0x100 + (cNmi.sp + 510) % 256)).testBit 4
      = true ∧
    (Bus.read (CPU.nmi cNmi mW).2 (0x100 + (cNmi.sp + 510) % 256)).testBit 5
      = false := by
  decide

/-- C3 amended: `nmi` (always) and `irq` (when I is clear) write, in order,
the PC high byte, the PC low byte, and the *current* status byte `P`
unmodified (so the pushed byte has B = 0 and U = 1 exactly when the
pre-interrupt `P` does); afterwards I is set, B is clear and U is set in `P`,
and `PC` is loaded from the little-endian vector (0xFFFA/0xFFFB for `nmi`,
0xFFFE/0xFFFF for `irq`). -/
theorem C3_interrupts_push_raw_p (c : CPU) (m : Mem) (hsp : c.sp < 256) :
    Bus.read (CPU.nmi c m).2 (0x100 + c.sp) = (c.pc >>> 8) % 256 ∧
    Bus.read (CPU.nmi c m).2 (0x100 + (c.sp + 255) % 256) = c.pc % 256 ∧
    Bus.read (CPU.nmi c m).2 (0x100 + (c.sp + 510) % 256) = c.p % 256 ∧
    (((CPU.nmi c m).1).p).testBit 2 = true ∧
    (((CPU.nmi c m).1).p).testBit 4 = false ∧
    (((CPU.nmi c m).1).p).testBit 5 = true ∧
    ((CPU.nmi c m).1).pc = 256 * Bus.read m 0xFFFB + Bus.read m 0xFFFA ∧
    (has_flag c.p StatusFlags.INTERRUPT_DISABLE = false →
      Bus.read (CPU.irq c m).2 (0x100 + c.sp) = (c.pc >>> 8) % 256 ∧
      Bus.read (CPU.irq c m).2 (0x100 + (c.sp + 255) % 256) = c.pc % 256 ∧
      Bus.read (CPU.irq c m).2 (0x100 + (c.sp + 510) % 256) = c.p % 256 ∧
      ((CPU.irq c m).1).pc = 256 * Bus.read m 0xFFFF + Bus.read m 0xFFFE ∧
      (((CPU.irq c m).1).p).testBit 2 = true) := by
  have t42 : Nat.testBit 4 2 = true := by decide
  have t322 : Nat.testBit 32 2 = false := by decide
  have t44 : Nat.testBit 4 4 = false := by decide
  have t324 : Nat.testBit 32 4 = false := by decide
  have t2394 : Nat.testBit 239 4 = false := by decide
  have hpbits : ∀ q : Nat,
      (set_flag (set_flag q StatusFlags.BREAK false)
        StatusFlags.INTERRUPT_DISABLE true).testBit 2 = true ∧
      (set_flag (set_flag q StatusFlags.BREAK false)
        StatusFlags.INTERRUPT_DISABLE true).testBit 4 = false := by
    intro q
    unfold set_flag StatusFlags.BREAK StatusFlags.INTERRUPT_DISABLE
      StatusFlags.UNUSED
    constructor
    · simp [Nat.testBit_or, Nat.testBit_and, t42, t322]
    · simp [Nat.testBit_or, Nat.testBit_and, t44, t324, t2394]
  refine ⟨?_, ?_, ?_, (hpbits c.p).1, (hpbits c.p).2,
    nmi_testBit5 c m, ?_, fun hI => ?_⟩
  · show Bus.read (Bus.write (Bus.write (Bus.write m
        (0x100 + c.sp % 256) ((c.pc >>> 8) % 256))
        (0x100 + (c.sp + 255) % 256) (c.pc % 256))
        (0x100 + ((c.sp + 255) % 256 + 255) % 256) c.p)
      (0x100 + c.sp) = (c.pc >>> 8) % 256
    rw [Bus.read_write, if_neg (by omega), Bus.read_write, if_neg (by omega),
      Bus.read_write, if_pos (by omega)]
    generalize c.pc >>> 8 = t
    omega
  · show Bus.read (Bus.write (Bus.write (Bus.write m
        (0x100 + c.sp % 256) ((c.pc >>> 8) % 256))
        (0x100 + (c.sp + 255) % 256) (c.pc % 256))
        (0x100 + ((c.sp + 255) % 256 + 255) % 256) c.p)
      (0x100 + (c.sp + 255) % 256) = c.pc % 256
    rw [Bus.read_write, if_neg (by omega), Bus.read_write, if_pos rfl]
    omega
  · show Bus.read (Bus.write (Bus.write (Bus.write m
        (0x100 + c.sp % 256) ((c.pc >>> 8) % 256))
        (0x100 + (c.sp + 255) % 256) (c.pc % 256))
        (0x100 + ((c.sp + 255) % 256 + 255) % 256) c.p)
      (0x100 + (c.sp + 510) % 256) = c.p % 256
    rw [Bus.read_write, if_pos (by omega)]
  · show (Bus.read (Bus.write (Bus.write (Bus.write m
          (0x100 + c.sp % 256) ((c.pc >>> 8) % 256))
          (0x100 + (c.sp + 255) % 256) (c.pc % 256))
          (0x100 + ((c.sp + 255) % 256 + 255) % 256) c.p) 0xFFFB <<< 8)
        ||| Bus.read (Bus.write (Bus.write (Bus.write m
          (0x100 + c.sp % 256) ((c.pc >>> 8) % 256))
          (0x100 + (c.sp + 255) % 256) (c.pc % 256))
          (0x100 + ((c.sp + 255) % 256 + 255) % 256) c.p) 0xFFFA
      = 256 * Bus.read m 0xFFFB + Bus.read m 0xFFFA
    rw [Bus.read_write, if_neg (by omega), Bus.read_write, if_neg (by omega),
      Bus.read_write, if_neg (by omega), Bus.read_write, if_neg (by omega),
      Bus.read_write, if_neg (by omega), Bus.read_write, if_neg (by omega),
      hilo _ _ (Bus.read_lt _ _)]
  · have hirq : CPU.irq c m = ({c with
        pc := (Bus.read (Bus.write (Bus.write (Bus.write m
            (0x100 + c.sp % 256) ((c.pc >>> 8) % 256))
            (0x100 + (c.sp + 255) % 256) (c.pc % 256))
            (0x100 + ((c.sp + 255) % 256 + 255) % 256) c.p) 0xFFFF <<< 8)
          ||| Bus.read (Bus.write (Bus.write (Bus.write m
            (0x100 + c.sp % 256) ((c.pc >>> 8) % 256))
            (0x100 + (c.sp + 255) % 256) (c.pc % 256))
            (0x100 + ((c.sp + 255) % 256 + 255) % 256) c.p) 0xFFFE,
        sp := (((c.sp + 255) % 256 + 255) % 256 + 255) % 256,
        p := set_flag (set_flag c.p StatusFlags.BREAK false)
          StatusFlags.INTERRUPT_DISABLE true,
        cycles := 7},
      Bus.write (Bus.write (Bus.write m
        (0x100 + c.sp % 256) ((c.pc >>> 8) % 256))
        (0x100 + (c.sp + 255) % 256) (c.pc % 256))
        (0x100 + ((c.sp + 255) % 256 + 255) % 256) c.p) := by
      unfold CPU.irq
      rw [hI]
      rfl
    rw [hirq]
    refine ⟨?_, ?_, ?_, ?_, (hpbits c.p).1⟩
    · rw [Bus.read_write, if_neg (by omega), Bus.read_write,
        if_neg (by omega), Bus.read_write, if_pos (by omega)]
      generalize c.pc >>> 8 = t
      omega
    · rw [Bus.read_write, if_neg (by omega), Bus.read_write, if_pos rfl]
      omega
    · rw [Bus.read_write, if_pos (by omega)]
    · show (Bus.read _ 0xFFFF <<< 8) ||| Bus.read _ 0xFFFE
        = 256 * Bus.read m 0xFFFF + Bus.read m 0xFFFE
      rw [Bus.read_write, if_neg (by omega), Bus.read_write,
        if_neg (by omega), Bus.read_write, if_neg (by omega),
        Bus.read_write, if_neg (by omega), Bus.read_write,
        if_neg (by omega), Bus.read_write, if_neg (by omega),
        hilo _ _ (Bus.read_lt _ _)]

/-- A CPU state with `P = 0x20` (I clear, B clear, U set) for the C3 witness. -/
def cIrqW : CPU := ⟨0, 0, 0, 0xFD, 0xC000, 0x20, 0, 0, 0, 0⟩

/-- Witness for C3 at `P = 0x20`, `SP = 0xFD`, `PC = 0xC000`. -/
theorem C3_interrupts_push_raw_p_witness :
    cIrqW.sp < 256 ∧
    Bus.read (CPU.nmi cIrqW mW).2 (0x100 + (cIrqW.sp + 510) % 256)
      = cIrqW.p % 256 ∧
    has_flag cIrqW.p StatusFlags.INTERRUPT_DISABLE = false ∧
    (((CPU.irq cIrqW mW).1).p).testBit 2 = true := by
  refine ⟨by decide, ?_, by decide, ?_⟩
  · exact (C3_interrupts_push_raw_p cIrqW mW (by decide)).2.2.1
  · exact ((C3_interrupts_push_raw_p cIrqW mW (by decide)).2.2.2.2.2.2.2
      (by decide)).2.2.2.2

set_option maxRecDepth 4096 in
/-- C6: `PHP; PLP` restores bits 0–3 and 6–7 of `P` (the pushed byte carries
the original bits, and `plp` ORs them back onto a `P` whose masked bits are
unchanged), and `PHA; PLA` restores `A` and sets the Z and N flags from the
restored value (`Z` iff `A = 0`, `N` iff bit 7 of `A`). -/
theorem C6_stack_round_trips (c : CPU) (m : Mem) (hp : c.p < 256)
    (ha : c.a < 256) :
    (((CPU.plp AddrMode.imp (CPU.php AddrMode.imp c m).1
        (CPU.php AddrMode.imp c m).2.1).1).p) &&& 0xCF = c.p &&& 0xCF ∧
    ((CPU.pla AddrMode.imp (CPU.pha AddrMode.imp c m).1
        (CPU.pha AddrMode.imp c m).2.1).1).a = c.a ∧
    (((CPU.pla AddrMode.imp (CPU.pha AddrMode.imp c m).1
        (CPU.pha AddrMode.imp c m).2.1).1).p).testBit 1 = (c.a == 0) ∧
    (((CPU.pla AddrMode.imp (CPU.pha AddrMode.imp c m).1
        (CPU.pha AddrMode.imp c m).2.1).1).p).testBit 7
      = (c.a &&& 0x80 != 0) := by
  have e1 : ((c.sp + 255) % 256 + 1) % 256 = c.sp % 256 := by omega
  have key : ∀ p < 256,
      (((p &&& 239) ||| 32) ||| ((((p ||| 16) ||| 32) % 256) &&& 0xCF)) &&& 0xCF
        = p &&& 0xCF := by decide
  have ht : Bus.read (CPU.php AddrMode.imp c m).2.1
      (0x100 + ((c.sp + 255) % 256 + 1) % 256)
      = ((c.p ||| 16) ||| 32) % 256 := by
    rw [e1]
    show Bus.read (Bus.write m (0x100 + c.sp % 256)
      (c.p ||| StatusFlags.BREAK ||| StatusFlags.UNUSED)) (0x100 + c.sp % 256)
      = ((c.p ||| 16) ||| 32) % 256
    rw [Bus.read_write, if_pos rfl]
    rfl
  have ha1 : Bus.read (CPU.pha AddrMode.imp c m).2.1
      (0x100 + ((c.sp + 255) % 256 + 1) % 256) = c.a := by
    rw [e1]
    show Bus.read (Bus.write m (0x100 + c.sp % 256) c.a) (0x100 + c.sp % 256)
      = c.a
    rw [Bus.read_write, if_pos rfl]
    exact Nat.mod_eq_of_lt ha
  have tb21 : Nat.testBit 2 1 = true := by decide
  have tb321 : Nat.testBit 32 1 = false := by decide
  have tb1281 : Nat.testBit 128 1 = false := by decide
  have tb1271 : Nat.testBit 127 1 = true := by decide
  have tb2531 : Nat.testBit 253 1 = false := by decide
  have tb27 : Nat.testBit 2 7 = false := by decide
  have tb327 : Nat.testBit 32 7 = false := by decide
  have tb1287 : Nat.testBit 128 7 = true := by decide
  have tb1277 : Nat.testBit 127 7 = false := by decide
  have tb2537 : Nat.testBit 253 7 = true := by decide
  have zlem : ∀ (p a : Nat) (v : Bool),
      (set_flag (set_flag p StatusFlags.ZERO (a == 0))
        StatusFlags.NEGATIVE v).testBit 1 = (a == 0) := by
    intro p a v
    unfold set_flag StatusFlags.ZERO StatusFlags.NEGATIVE StatusFlags.UNUSED
    cases h0 : (a == 0) <;> cases v <;>
      simp [Nat.testBit_or, Nat.testBit_and, tb21, tb321, tb1281, tb1271,
        tb2531]
  have nlem : ∀ (p a : Nat) (v : Bool),
      (set_flag (set_flag p StatusFlags.ZERO v)
        StatusFlags.NEGATIVE (a &&& 0x80 != 0)).testBit 7
        = (a &&& 0x80 != 0) := by
    intro p a v
    unfold set_flag StatusFlags.ZERO StatusFlags.NEGATIVE StatusFlags.UNUSED
    cases h0 : (a &&& 0x80 != 0) <;> cases v <;>
      simp [Nat.testBit_or, Nat.testBit_and, tb27, tb327, tb1287, tb1277,
        tb2537]
  refine ⟨?_, ?_, ?_, ?_⟩
  · show ((set_flag c.p StatusFlags.BREAK false) |||
        ((Bus.read (CPU.php AddrMode.imp c m).2.1
          (0x100 + ((c.sp + 255) % 256 + 1) % 256)) &&& 0xCF)) &&& 0xCF
      = c.p &&& 0xCF
    rw [ht]
    exact key c.p hp
  · show Bus.read (CPU.pha AddrMode.imp c m).2.1
      (0x100 + ((c.sp + 255) % 256 + 1) % 256) = c.a
    exact ha1
  · show (set_flag (set_flag c.p StatusFlags.ZERO
        ((Bus.read (CPU.pha AddrMode.imp c m).2.1
          (0x100 + ((c.sp + 255) % 256 + 1) % 256)) == 0))
        StatusFlags.NEGATIVE
        ((Bus.read (CPU.pha AddrMode.imp c m).2.1
          (0x100 + ((c.sp + 255) % 256 + 1) % 256)) &&& 0x80 != 0)).testBit 1
      = (c.a == 0)
    rw [ha1]
    exact zlem c.p c.a _
  · show (set_flag (set_flag c.p StatusFlags.ZERO
        ((Bus.read (CPU.pha AddrMode.imp c m).2.1
          (0x100 + ((c.sp + 255) % 256 + 1) % 256)) == 0))
        StatusFlags.NEGATIVE
        ((Bus.read (CPU.pha AddrMode.imp c m).2.1
          (0x100 + ((c.sp + 255) % 256 + 1) % 256)) &&& 0x80 != 0)).testBit 7
      = (c.a &&& 0x80 != 0)
    rw [ha1]
    exact nlem c.p c.a _

/-- Witness for C6 at the concrete state `cW` (`P = 0x24`, `A = 0`). -/
theorem C6_stack_round_trips_witness :
    cW.p < 256 ∧ cW.a < 256 ∧
    ((CPU.pla AddrMode.imp (CPU.pha AddrMode.imp cW mW).1
        (CPU.pha AddrMode.imp cW mW).2.1).1).a = cW.a :=
  ⟨by decide, by decide,
    (C6_stack_round_trips cW mW (by decide) (by decide)).2.1⟩

/-- A 16-byte iNES file: valid magic, 0 PRG and 0 CHR banks, trainer bit set
in flag6, mapper 0. Its length is below `16 + 512 + prg + chr`, so the spec
requires a load error; the code instead reaches the PRG slice at offset 528
and panics. -/
def romTrainer : List Nat :=
  [0x4E, 0x45, 0x53, 0x1A, 0, 0, 0x04, 0, 0, 0, 0, 0, 0, 0, 0, 0]

/-- C4: `Cartridge::from_rom` is not total. On an empty (0-byte) file the
very first operation `&buffer[0..4]` indexes out of bounds and panics instead
of returning a load error, and on a 16-byte trainer file (shorter than
`16 + 512 + prg_size + chr_size`) the PRG slice panics because the length
check omits the 512-byte trainer. -/
theorem C4_from_rom_panics :
    Cartridge.from_rom [] = RomResult.panicked ∧
    romTrainer.length = 16 ∧
    romTrainer.length < 16 + 512 + 0 + 0 ∧
    Cartridge.from_rom romTrainer = RomResult.panicked := by
  decide

/-- A cartridge whose PRG-ROM holds the single byte 1 at offset 0. -/
def cart5 : Cartridge :=
  ⟨1, [1], [], 1, ⟨[], Mirroring.horizontal⟩, MapperKind.nrom⟩

/-- A NES bus with all-zero RAM holding `cart5`. -/
def bus5 : NesBus := ⟨mW, cart5⟩

/-- C5: `Bus::cpu_read` in nes/bus.rs does not delegate cartridge-space
accesses to the cartridge: at 0x8000 it returns the internal RAM byte (0)
while the cartridge's own `cpu_read` returns 1; at 0x4020 it returns the
constant 0; and `Bus::cpu_write` drops the write (RAM and cartridge are both
unchanged). -/
theorem C5_bus_does_not_delegate :
    NesBus.cpu_read bus5 0x8000 = 0 ∧
    Cartridge.cpu_read cart5 0x8000 = some 1 ∧
    NesBus.cpu_read bus5 0x4020 = 0 ∧
    (NesBus.cpu_write bus5 0x8000 0x55).ram 0x8000 = 0 ∧
    (NesBus.cpu_write bus5 0x8000 0x55).cartridge = cart5 := by
  constructor
  · rfl
  · constructor
    · rfl
    · constructor
      · rfl
      · constructor
        · rfl
        · rfl

/-- C10: `NromMapper::cpu_read` computes `offset = addr - 0x8000` with an
unsigned subtraction, so it is well-defined only for `addr ≥ 0x8000` (the
underflowing case is modelled as `none`); for in-range addresses whose mapped
index falls outside `prg_rom` the read returns 0; and `Cartridge::cpu_read`
is exactly the mapper's read. -/
theorem C10_nrom_read_precondition :
    (∀ addr cart, addr < 0x8000 → NromMapper.cpu_read addr cart = none) ∧
    (∀ addr cart, 0x8000 ≤ addr →
      cart.prg_rom.length ≤ nromMappedAddr cart addr →
      NromMapper.cpu_read addr cart = some 0) ∧
    (∀ cart addr, Cartridge.cpu_read cart addr
      = NromMapper.cpu_read addr cart) := by
  refine ⟨?_, ?_, ?_⟩
  · intro addr cart h
    unfold NromMapper.cpu_read
    rw [if_pos h]
  · intro addr cart h hlen
    unfold NromMapper.cpu_read
    rw [if_neg (by omega)]
    rw [List.getD_eq_getElem?_getD, List.getElem?_eq_none hlen]
    rfl
  · intro cart addr
    cases hmk : cart.mapper
    simp [Cartridge.cpu_read, MapperKind.cpu_read, hmk]

/-- A cartridge with a single PRG bank and empty PRG-ROM. -/
def cartEmpty : Cartridge :=
  ⟨1, [], [], 1, ⟨[], Mirroring.horizontal⟩, MapperKind.nrom⟩

/-- Witness for C10 at addresses 0x7FFF (underflow) and 0x8000 (out of
PRG-ROM range). -/
theorem C10_nrom_read_precondition_witness :
    (0x7FFF : Nat) < 0x8000 ∧
    NromMapper.cpu_read 0x7FFF cartEmpty = none ∧
    (0x8000 : Nat) ≤ 0x8000 ∧
    cartEmpty.prg_rom.length ≤ nromMappedAddr cartEmpty 0x8000 ∧
    NromMapper.cpu_read 0x8000 cartEmpty = some 0 :=
  ⟨by decide, C10_nrom_read_precondition.1 0x7FFF cartEmpty (by decide),
    by decide, by decide,
    C10_nrom_read_precondition.2.1 0x8000 cartEmpty (by decide) (by decide)⟩

end BossRush
